import Mathlib

/-!
Verification of SecureBot (src/bot.py).

This file shallowly embeds the parts of the bot that the specification's
core covers: the anti-spam counter (spam_record_and_check), the per-message
pipeline (pipeline_handlers together with handle_spam_action), the user
registry (save_user) and the password generator (generate_password with
cmd_gen's length clamp).

Modelling conventions:
  * Time is an integer count of microseconds. Python's datetime has
    microsecond resolution, and (now - last).total_seconds() > 10 holds
    exactly when the microsecond difference exceeds 10 * 1000000, so the
    comparison is modelled without loss.
  * The stored last_ts column is TEXT in SQLite and is parsed with
    datetime.fromisoformat under a bare except. A stored value is modelled
    as Option Int: some t for a string parsing to timestamp t, none for a
    string that fails to parse.
  * SQLite tables keyed by user_id become association lists; a read is a
    lookup by key and a write an insert-or-update by key.
  * Storage failures are injected by a Bool flag per call site: save_user
    wraps its whole body in try/except (a failure is caught, logged and the
    table left unchanged), while spam_record_and_check has no handler, so
    its fallible form is Except-valued and a failure escapes to the caller.
  * Outbound platform calls (replies, restriction, deletion scheduling) are
    recorded as an ordered effect trace; platform-side errors are out of
    scope here (the spec's claims are stated "platform errors aside").
  * secrets.choice is modelled by a stream rand : Nat -> Nat of draws; the
    unbounded retry loop of generate_password takes explicit fuel and
    returns none when the fuel is exhausted.
-/

namespace SecureBot

/-- Messages allowed in the window before the throttle fires
(SPAM_LIMIT = 6 in src/bot.py). -/
def SPAM_LIMIT : Nat := 6

/-- Length of the anti-spam window in seconds (SPAM_WINDOW_SEC = 10). -/
def SPAM_WINDOW_SEC : Int := 10

/-- The anti-spam window expressed in microseconds. -/
def windowMicros : Int := SPAM_WINDOW_SEC * 1000000

/-- Delay before the deferred deletion of a user message
(AUTO_DELETE_SECONDS = 12). -/
def AUTO_DELETE_SECONDS : Nat := 12

/-- A row of the spam table: the running count and the stored last_ts
text, already classified by whether it parses (none = unparseable). -/
structure SpamRecord where
  count : Nat
  last_ts : Option Int
  deriving Repr, DecidableEq

/-- Embeds spam_record_and_check from src/bot.py, acting on the row (if
any) stored for the user and the current time, and returning the count
handed back to the pipeline together with the row written back. -/
def spam_record_and_check (row : Option SpamRecord) (now : Int) : Nat × SpamRecord :=
  match row with
  | none => (1, ⟨1, some now⟩)
  | some r =>
      let last : Int :=
        match r.last_ts with
        | some t => t
        | none => now
      if now - last > windowMicros then
        (1, ⟨1, some now⟩)
      else
        (r.count + 1, ⟨r.count + 1, some now⟩)

/-- spam_record_and_check with a storage-failure flag: the function body
has no try/except, so a failing storage operation escapes to the caller
as an exception. -/
def spam_record_and_checkF (storageFails : Bool) (row : Option SpamRecord) (now : Int) :
    Except String (Nat × SpamRecord) :=
  if storageFails then Except.error "sqlite3.OperationalError"
  else Except.ok (spam_record_and_check row now)

/-- The sender object of an inbound update: the fields save_user reads.
Optional fields mirror python-telegram-bot's optional profile fields. -/
structure TUser where
  id : Int
  username : Option String
  first_name : Option String
  last_name : Option String
  deriving Repr, DecidableEq

/-- A row of the users table. -/
structure UserRecord where
  user_id : Int
  username : String
  first_name : String
  last_name : String
  added_at : Int
  deriving Repr, DecidableEq

/-- The row save_user builds for a user at time now: optional profile
fields default to the empty string (the `or ""` in the source). -/
def userRow (u : TUser) (now : Int) : UserRecord :=
  ⟨u.id, u.username.getD "", u.first_name.getD "", u.last_name.getD "", now⟩

/-- Embeds the INSERT OR IGNORE of save_user: a row is appended only when
no row with the same user_id primary key exists. -/
def save_user (db : List UserRecord) (u : TUser) (now : Int) : List UserRecord :=
  if db.any (fun r => r.user_id == u.id) then db
  else db ++ [userRow u now]

/-- save_user with a storage-failure flag: the whole body sits in
try/except, so a failing storage operation is caught and logged and the
table is left unchanged; no exception reaches the caller. -/
def save_userF (storageFails : Bool) (db : List UserRecord) (u : TUser) (now : Int) :
    List UserRecord :=
  if storageFails then db else save_user db u now

/-- Lowercase letters, as in string.ascii_lowercase. -/
def ascii_lowercase : List Char := "abcdefghijklmnopqrstuvwxyz".toList

/-- Uppercase letters, as in string.ascii_uppercase. -/
def ascii_uppercase : List Char := "ABCDEFGHIJKLMNOPQRSTUVWXYZ".toList

/-- Digits, as in string.digits. -/
def ascii_digits : List Char := "0123456789".toList

/-- The special characters of generate_password. -/
def specials : List Char := "!@#$%^&*()_-+=<>?/\x7b\x7d[]|".toList

/-- The alphabet generate_password draws from: letters and digits, plus
the specials when use_special is set. -/
def pwdAlphabet (use_special : Bool) : List Char :=
  ascii_lowercase ++ ascii_uppercase ++ ascii_digits ++
    (if use_special then specials else [])

/-- One candidate password: length independent draws from the alphabet,
taken from the stream starting at position base. -/
def mkAttempt (alphabet : List Char) (length : Nat) (rand : Nat → Nat) (base : Nat) :
    List Char :=
  (List.range length).map (fun i => alphabet.getD (rand (base + i) % alphabet.length) 'a')

/-- The acceptance test of generate_password's retry loop: at least one
lowercase, one uppercase, one digit, and one special when requested. -/
def pwdOk (use_special : Bool) (pwd : List Char) : Bool :=
  pwd.any Char.isLower && pwd.any Char.isUpper && pwd.any Char.isDigit &&
    (!use_special || pwd.any (fun c => specials.contains c))

/-- The while-True retry loop of generate_password, with explicit fuel;
attempt numbers advance the draw stream. -/
def gen_loop (use_special : Bool) (length : Nat) (rand : Nat → Nat) :
    Nat → Nat → Option (List Char)
  | _, 0 => none
  | attempt, fuel + 1 =>
      let pwd := mkAttempt (pwdAlphabet use_special) length rand (attempt * length)
      if pwdOk use_special pwd then some pwd
      else gen_loop use_special length rand (attempt + 1) fuel

/-- Embeds generate_password: retry drawing length characters until the
candidate passes the character-class test. -/
def generate_password (length : Nat) (use_special : Bool) (rand : Nat → Nat)
    (fuel : Nat) : Option (List Char) :=
  gen_loop use_special length rand 0 fuel

/-- The length cmd_gen uses: 16 when the argument is missing or fails
int(), otherwise max(6, min(64, n)). -/
def cmd_gen_length (arg : Option Int) : Int :=
  match arg with
  | none => 16
  | some n => max 6 (min 64 n)

/-- An outbound side effect of the message pipeline, in the order the
handler performs or schedules it. -/
inductive Effect where
  | registrySave (uid : Int)
  | counterPersist (uid : Int) (count : Nat)
  | warnReply
  | restrict (uid : Int) (minutes : Nat)
  | autoReply (text : String)
  | scheduleAutoDelete (delaySec : Nat)
  deriving Repr, DecidableEq

/-- The keyword table of auto_reply_handler, in insertion order. -/
def replies : List (String × String) :=
  [("hi", "Hello! 👋"),
   ("hello", "Hi there 😊"),
   ("how are you", "I\x27m fine — thanks!"),
   ("help", "Use /help to see available commands.")]

/-- Substring test on character lists: needle occurs inside hay. -/
def containsSub (needle hay : List Char) : Bool :=
  hay.tails.any (fun t => needle.isPrefixOf t)

/-- Embeds auto_reply_handler: lowercase the text, then the first keyword
occurring as a substring wins; at most one reply. -/
def auto_reply (text : String) : Option String :=
  (replies.find? (fun kv => containsSub kv.1.toList text.toLower.toList)).map
    (fun kv => kv.2)

/-- The durable state the pipeline touches: the users table and the spam
table, both keyed by user_id. -/
structure BotState where
  users : List UserRecord
  spam : List (Int × SpamRecord)
  deriving Repr, DecidableEq

/-- Read the spam row for a user. -/
def spamLookup (tbl : List (Int × SpamRecord)) (uid : Int) : Option SpamRecord :=
  (tbl.find? (fun p => p.1 == uid)).map (fun p => p.2)

/-- Write the spam row for a user: UPDATE when the key exists, INSERT
otherwise. -/
def spamStore (tbl : List (Int × SpamRecord)) (uid : Int) (r : SpamRecord) :
    List (Int × SpamRecord) :=
  if tbl.any (fun p => p.1 == uid) then
    tbl.map (fun p => if p.1 == uid then (uid, r) else p)
  else tbl ++ [(uid, r)]

/-- Embeds handle_spam_action: the warning reply is sent first, then the
member is restricted from sending for 10 minutes. -/
def handle_spam_action (uid : Int) : List Effect :=
  [Effect.warnReply, Effect.restrict uid 10]

/-- The error the pipeline raises when the sender is unresolvable: the
source guards save_user with `if user:` but then evaluates user.id
unconditionally. -/
def attributeErrorMsg : String :=
  "AttributeError: \x27NoneType\x27 object has no attribute \x27id\x27"

/-- Embeds pipeline_handlers with storage-failure flags for its two store
calls. A missing sender skips save_user but then dereferences user.id and
raises. A registry failure is absorbed inside save_user and the pipeline
continues; a counter failure escapes because spam_record_and_check has no
handler. On a count at or above SPAM_LIMIT the handler performs the spam
action and returns; otherwise it runs the auto-reply lookup and schedules
the deferred deletion. -/
def pipeline_handlersF (regFails ctrFails : Bool) (st : BotState)
    (sender : Option TUser) (text : String) (now : Int) :
    Except String (BotState × List Effect) :=
  match sender with
  | none => Except.error attributeErrorMsg
  | some user =>
      let users1 := save_userF regFails st.users user now
      match spam_record_and_checkF ctrFails (spamLookup st.spam user.id) now with
      | Except.error e => Except.error e
      | Except.ok res =>
          let cnt := res.1
          let st1 : BotState := ⟨users1, spamStore st.spam user.id res.2⟩
          let pre := [Effect.registrySave user.id, Effect.counterPersist user.id cnt]
          if SPAM_LIMIT ≤ cnt then
            Except.ok (st1, pre ++ handle_spam_action user.id)
          else
            let replyEffs :=
              match auto_reply text with
              | some r => [Effect.autoReply r]
              | none => []
            Except.ok (st1, pre ++ replyEffs ++
              [Effect.scheduleAutoDelete AUTO_DELETE_SECONDS])

/-- pipeline_handlers as in the source: the storage layer does not fail. -/
def pipeline_handlers (st : BotState) (sender : Option TUser) (text : String)
    (now : Int) : Except String (BotState × List Effect) :=
  pipeline_handlersF false false st sender text now

/-- Run the spam evaluation over a list of message times, threading the
written row, and collect the returned counts. -/
def spamFold : Option SpamRecord → List Int → List Nat
  | _, [] => []
  | row, t :: ts =>
      let res := spam_record_and_check row t
      res.1 :: spamFold (some res.2) ts

/-- Every consecutive gap in the list of times is at most the window. -/
def gapsWithin : List Int → Bool
  | [] => true
  | [_] => true
  | a :: b :: ts => (b - a ≤ windowMicros) && gapsWithin (b :: ts)

/-- C1: the spam evaluation creates a fresh row with count 1 and last_ts
now when no row exists, resets to count 1 when the gap strictly exceeds
the window, and otherwise (a gap equal to the window included) writes and
returns the incremented count with last_ts set to now. -/
theorem C1_spam_eval_cases (row : Option SpamRecord) (now : Int) :
    (row = none → spam_record_and_check row now = (1, ⟨1, some now⟩)) ∧
    (∀ c t, row = some ⟨c, some t⟩ → windowMicros < now - t →
      spam_record_and_check row now = (1, ⟨1, some now⟩)) ∧
    (∀ c t, row = some ⟨c, some t⟩ → now - t ≤ windowMicros →
      spam_record_and_check row now = (c + 1, ⟨c + 1, some now⟩)) := by
  refine ⟨?_, ?_, ?_⟩
  · rintro rfl; rfl
  · rintro c t rfl hw
    simp only [spam_record_and_check]
    rw [if_pos hw]
  · rintro c t rfl hw
    simp only [spam_record_and_check]
    rw [if_neg (not_lt.mpr hw)]

/-- Witness for C1 at concrete inputs: a missing row, a gap one
microsecond past the window, and a gap equal to the window. -/
theorem C1_spam_eval_cases_witness :
    spam_record_and_check none 0 = (1, ⟨1, some 0⟩) ∧
    spam_record_and_check (some ⟨3, some 0⟩) 10000001 = (1, ⟨1, some 10000001⟩) ∧
    spam_record_and_check (some ⟨3, some 0⟩) 10000000 = (4, ⟨4, some 10000000⟩) :=
  ⟨(C1_spam_eval_cases none 0).1 rfl,
   (C1_spam_eval_cases (some ⟨3, some 0⟩) 10000001).2.1 3 0 rfl
     (by norm_num [windowMicros, SPAM_WINDOW_SEC]),
   (C1_spam_eval_cases (some ⟨3, some 0⟩) 10000000).2.2 3 0 rfl
     (by norm_num [windowMicros, SPAM_WINDOW_SEC])⟩

/-- C2 counterexample: with a stored count of 3 and a gap of exactly
10.000 s the evaluation returns 4, not the 1 the claim requires. -/
theorem C2_boundary_counterexample :
    (spam_record_and_check (some ⟨3, some 0⟩) 10000000).1 = 4 ∧
    (spam_record_and_check (some ⟨3, some 0⟩) 10000000).1 ≠ 1 := by
  decide

/-- C2 amended: a gap of exactly the window length (10.000 s) increments
the count rather than resetting it, and a 9.999 s gap increments as well;
a reset needs a gap strictly greater than the window. -/
theorem C2_boundary_increments (c : Nat) (t now : Int)
    (h : now - t = 10000000 ∨ now - t = 9999000) :
    spam_record_and_check (some ⟨c, some t⟩) now = (c + 1, ⟨c + 1, some now⟩) := by
  have hw : now - t ≤ windowMicros := by
    rcases h with h | h <;> rw [h] <;> norm_num [windowMicros, SPAM_WINDOW_SEC]
  simp only [spam_record_and_check]
  rw [if_neg (not_lt.mpr hw)]

/-- Witness for the amended C2 at both boundary gaps. -/
theorem C2_boundary_increments_witness :
    spam_record_and_check (some ⟨3, some 0⟩) 10000000 = (4, ⟨4, some 10000000⟩) ∧
    spam_record_and_check (some ⟨5, some 1000⟩) 10000000 = (6, ⟨6, some 10000000⟩) :=
  ⟨C2_boundary_increments 3 0 10000000 (Or.inl (by norm_num)),
   C2_boundary_increments 5 1000 10000000 (Or.inr (by norm_num))⟩

/-- C10: a stored row whose last_ts text does not parse is treated as
last = now, so the gap is zero, the count increments (never resets),
last_ts is rewritten to now, and no exception escapes. -/
theorem C10_parse_failure_increments (c : Nat) (now : Int) :
    spam_record_and_check (some ⟨c, none⟩) now = (c + 1, ⟨c + 1, some now⟩) ∧
    spam_record_and_checkF false (some ⟨c, none⟩) now =
      Except.ok (c + 1, ⟨c + 1, some now⟩) := by
  have h : spam_record_and_check (some ⟨c, none⟩) now = (c + 1, ⟨c + 1, some now⟩) := by
    simp only [spam_record_and_check]
    rw [if_neg (by norm_num [windowMicros, SPAM_WINDOW_SEC])]
  exact ⟨h, by simp [spam_record_and_checkF, h]⟩

/-- Test that an effect is neither an auto-reply nor a scheduled deferred
deletion. -/
def notReplyOrDelete : Effect → Bool
  | Effect.autoReply _ => false
  | Effect.scheduleAutoDelete _ => false
  | _ => true

/-- On a throttling count the pipeline call returns right after the spam
action, with the four synchronous effects in source order. -/
theorem pipeline_throttle_eq (st : BotState) (u : TUser) (text : String) (now : Int)
    (h : SPAM_LIMIT ≤ (spam_record_and_check (spamLookup st.spam u.id) now).1) :
    pipeline_handlers st (some u) text now =
      Except.ok
        (⟨save_user st.users u now,
          spamStore st.spam u.id (spam_record_and_check (spamLookup st.spam u.id) now).2⟩,
         [Effect.registrySave u.id,
          Effect.counterPersist u.id (spam_record_and_check (spamLookup st.spam u.id) now).1,
          Effect.warnReply, Effect.restrict u.id 10]) := by
  simp [pipeline_handlers, pipeline_handlersF, save_userF, spam_record_and_checkF,
    handle_spam_action, h]

/-- C3: when the spam evaluation returns a count at least SPAM_LIMIT the
pipeline terminates after the spam action: the trace is exactly registry
save, counter persist, warning reply and restriction, and contains no
auto-reply and no scheduled deferred deletion. -/
theorem C3_throttle_short_circuits (st : BotState) (u : TUser) (text : String) (now : Int)
    (h : SPAM_LIMIT ≤ (spam_record_and_check (spamLookup st.spam u.id) now).1) :
    ∀ st1 effs, pipeline_handlers st (some u) text now = Except.ok (st1, effs) →
      effs = [Effect.registrySave u.id,
              Effect.counterPersist u.id
                (spam_record_and_check (spamLookup st.spam u.id) now).1,
              Effect.warnReply, Effect.restrict u.id 10] ∧
      effs.all notReplyOrDelete = true := by
  intro st1 effs hrun
  rw [pipeline_throttle_eq st u text now h] at hrun
  have heffs : effs = [Effect.registrySave u.id,
      Effect.counterPersist u.id (spam_record_and_check (spamLookup st.spam u.id) now).1,
      Effect.warnReply, Effect.restrict u.id 10] := by
    have := (Prod.mk.injEq _ _ _ _).mp (Except.ok.inj hrun.symm)
    exact this.2
  subst heffs
  exact ⟨rfl, rfl⟩

/-- Witness for C3 on a concrete run: a user with a stored count of 5
sends again inside the window, the count reaches 6 and the trace holds
no auto-reply and no deferred deletion. -/
theorem C3_throttle_short_circuits_witness :
    [Effect.registrySave 7, Effect.counterPersist 7 6, Effect.warnReply,
     Effect.restrict 7 10] =
      [Effect.registrySave 7,
       Effect.counterPersist 7
         (spam_record_and_check (spamLookup [(7, ⟨5, some 0⟩)] 7) 1).1,
       Effect.warnReply, Effect.restrict 7 10] ∧
    ([Effect.registrySave 7, Effect.counterPersist 7 6, Effect.warnReply,
      Effect.restrict 7 10].all notReplyOrDelete) = true :=
  C3_throttle_short_circuits ⟨[], [(7, ⟨5, some 0⟩)]⟩ ⟨7, none, none, none⟩ "x" 1
    (by decide)
    ⟨[⟨7, "", "", "", 1⟩], [(7, ⟨6, some 1⟩)]⟩
    [Effect.registrySave 7, Effect.counterPersist 7 6, Effect.warnReply,
     Effect.restrict 7 10]
    (by rfl)

/-- C4 counterexample: on a concrete throttling run the warning reply sits
at index 2 of the trace and the restriction at index 3, so the restriction
is not applied before the warning reply as the claim states. -/
theorem C4_order_counterexample :
    pipeline_handlers ⟨[], [(8, ⟨5, some 0⟩)]⟩ (some ⟨8, none, none, none⟩) "y" 1 =
      Except.ok (⟨[⟨8, "", "", "", 1⟩], [(8, ⟨6, some 1⟩)]⟩,
        [Effect.registrySave 8, Effect.counterPersist 8 6, Effect.warnReply,
         Effect.restrict 8 10]) ∧
    List.indexOf Effect.warnReply
      [Effect.registrySave 8, Effect.counterPersist 8 6, Effect.warnReply,
       Effect.restrict 8 10] = 2 ∧
    List.indexOf (Effect.restrict 8 10)
      [Effect.registrySave 8, Effect.counterPersist 8 6, Effect.warnReply,
       Effect.restrict 8 10] = 3 ∧
    ¬ List.indexOf (Effect.restrict 8 10)
        [Effect.registrySave 8, Effect.counterPersist 8 6, Effect.warnReply,
         Effect.restrict 8 10] <
      List.indexOf Effect.warnReply
        [Effect.registrySave 8, Effect.counterPersist 8 6, Effect.warnReply,
         Effect.restrict 8 10] := by
  refine ⟨rfl, by decide, by decide, by decide⟩

/-- C4 amended: on a throttle verdict the one-time warning reply is sent
first and the restriction applied right after it, and the restriction is
part of the synchronous trace of the handler call, so the moderation side
effect happens before the pipeline returns for that message. -/
theorem C4_order_amended (st : BotState) (u : TUser) (text : String) (now : Int)
    (h : SPAM_LIMIT ≤ (spam_record_and_check (spamLookup st.spam u.id) now).1) :
    ∀ st1 effs, pipeline_handlers st (some u) text now = Except.ok (st1, effs) →
      effs.get? 2 = some Effect.warnReply ∧
      effs.get? 3 = some (Effect.restrict u.id 10) ∧
      Effect.restrict u.id 10 ∈ effs := by
  intro st1 effs hrun
  rw [pipeline_throttle_eq st u text now h] at hrun
  have heffs : effs = [Effect.registrySave u.id,
      Effect.counterPersist u.id (spam_record_and_check (spamLookup st.spam u.id) now).1,
      Effect.warnReply, Effect.restrict u.id 10] := by
    have := (Prod.mk.injEq _ _ _ _).mp (Except.ok.inj hrun.symm)
    exact this.2
  subst heffs
  refine ⟨rfl, rfl, by simp⟩

/-- Witness for the amended C4 on a concrete throttling run. -/
theorem C4_order_amended_witness :
    ([Effect.registrySave 9, Effect.counterPersist 9 6, Effect.warnReply,
      Effect.restrict 9 10] : List Effect).get? 2 = some Effect.warnReply ∧
    ([Effect.registrySave 9, Effect.counterPersist 9 6, Effect.warnReply,
      Effect.restrict 9 10] : List Effect).get? 3 = some (Effect.restrict 9 10) ∧
    Effect.restrict 9 10 ∈
      ([Effect.registrySave 9, Effect.counterPersist 9 6, Effect.warnReply,
        Effect.restrict 9 10] : List Effect) :=
  C4_order_amended ⟨[], [(9, ⟨5, some 0⟩)]⟩ ⟨9, none, none, none⟩ "z" 1
    (by decide)
    ⟨[⟨9, "", "", "", 1⟩], [(9, ⟨6, some 1⟩)]⟩
    [Effect.registrySave 9, Effect.counterPersist 9 6, Effect.warnReply,
     Effect.restrict 9 10]
    (by rfl)

/-- C5: a message whose sender cannot be resolved is not handled silently:
the guard skips save_user, but the handler then evaluates user.id on the
missing sender and raises an AttributeError, so the pipeline call errors
(while indeed writing no state and producing no effect). -/
theorem C5_no_sender_raises (st : BotState) (text : String) (now : Int) :
    pipeline_handlers st none text now = Except.error attributeErrorMsg := rfl

/-- C6 counterexample: with the storage layer failing during the counter
operation, the failure is not caught: the whole pipeline call errors
instead of proceeding as a no-op. -/
theorem C6_counter_failure_propagates :
    pipeline_handlersF false true ⟨[], []⟩ (some ⟨7, none, none, none⟩) "x" 0 =
      Except.error "sqlite3.OperationalError" ∧
    ∀ v, spam_record_and_checkF true (some ⟨1, some 0⟩) 1 ≠ Except.ok v := by
  refine ⟨rfl, ?_⟩
  intro v h
  simp [spam_record_and_checkF] at h

/-- C6 amended: a storage failure during the registry save is caught inside
save_user and the pipeline proceeds exactly as on success (only the users
table stays unchanged), while a storage failure during the counter
operation is uncaught and propagates out of the pipeline call. -/
theorem C6_storage_failure_policy (st : BotState) (u : TUser) (text : String) (now : Int) :
    save_userF true st.users u now = st.users ∧
    pipeline_handlersF true false st (some u) text now =
      Except.map (fun p => (⟨st.users, p.1.spam⟩, p.2))
        (pipeline_handlersF false false st (some u) text now) ∧
    pipeline_handlersF false true st (some u) text now =
      Except.error "sqlite3.OperationalError" := by
  refine ⟨rfl, ?_, rfl⟩
  by_cases h : SPAM_LIMIT ≤ (spam_record_and_check (spamLookup st.spam u.id) now).1 <;>
    simp [pipeline_handlersF, save_userF, spam_record_and_checkF, Except.map, h]

/-- C7: registry insertion is first-write-wins: starting from a table with
no row for the user, saving twice (the second time with possibly different
profile fields under the same id) leaves exactly the one row written by the
first call, and the second call changes nothing. -/
theorem C7_registry_first_write_wins (db : List UserRecord) (u v : TUser)
    (t1 t2 : Int) (hid : v.id = u.id) (habs : ∀ r ∈ db, r.user_id ≠ u.id) :
    save_user (save_user db u t1) v t2 = save_user db u t1 ∧
    (save_user db u t1).filter (fun r => r.user_id == u.id) = [userRow u t1] := by
  have h1 : db.any (fun r => r.user_id == u.id) = false := by
    simp only [List.any_eq_false]
    intro r hr
    simpa using habs r hr
  have hdb : save_user db u t1 = db ++ [userRow u t1] := by
    simp [save_user, h1]
  have h2 : (db ++ [userRow u t1]).any (fun r => r.user_id == v.id) = true := by
    simp [List.any_append, userRow, hid]
  constructor
  · rw [hdb]
    simp [save_user, h2]
  · rw [hdb, List.filter_append]
    have hnil : db.filter (fun r => r.user_id == u.id) = [] := by
      simp only [List.filter_eq_nil_iff]
      intro r hr
      simpa using habs r hr
    rw [hnil]
    simp [userRow]

/-- Witness for C7: the same id saved twice with different usernames keeps
only the first row. -/
theorem C7_registry_first_write_wins_witness :
    save_user (save_user [] ⟨1, some "alice", none, none⟩ 0) ⟨1, some "bob", none, none⟩ 5 =
      save_user [] ⟨1, some "alice", none, none⟩ 0 ∧
    (save_user [] ⟨1, some "alice", none, none⟩ 0).filter
      (fun r => r.user_id == (⟨1, some "bob", none, none⟩ : TUser).id) =
      [userRow ⟨1, some "alice", none, none⟩ 0] :=
  C7_registry_first_write_wins [] ⟨1, some "alice", none, none⟩
    ⟨1, some "bob", none, none⟩ 0 5 rfl (by intro r hr; simp at hr)

/-- One candidate password always has the requested length. -/
lemma mkAttempt_length (alphabet : List Char) (len : Nat) (rand : Nat → Nat) (base : Nat) :
    (mkAttempt alphabet len rand base).length = len := by
  simp [mkAttempt]

/-- Whatever the retry loop returns has the requested length and passes
the character-class test. -/
lemma gen_loop_sound (us : Bool) (len : Nat) (rand : Nat → Nat) :
    ∀ fuel attempt pwd, gen_loop us len rand attempt fuel = some pwd →
      pwd.length = len ∧ pwdOk us pwd = true := by
  intro fuel
  induction fuel with
  | zero =>
      intro attempt pwd h
      exact absurd h (by simp [gen_loop])
  | succ n ih =>
      intro attempt pwd h
      simp only [gen_loop] at h
      by_cases hc : pwdOk us (mkAttempt (pwdAlphabet us) len rand (attempt * len)) = true
      · rw [if_pos hc] at h
        obtain rfl := Option.some.inj h
        exact ⟨mkAttempt_length _ _ _ _, hc⟩
      · rw [if_neg hc] at h
        exact ih (attempt + 1) pwd h

/-- C8: the requested length is clamped into the range 6 to 64 (16 when
the argument is missing or not numeric), and whenever the generator
returns, the password has exactly the clamped length and contains at
least one lowercase letter, one uppercase letter, one digit, and, when
specials are enabled, one character of the special set. -/
theorem C8_password_spec (arg : Option Int) (use_special : Bool) (rand : Nat → Nat)
    (fuel : Nat) (pwd : List Char)
    (h : generate_password (cmd_gen_length arg).toNat use_special rand fuel = some pwd) :
    6 ≤ cmd_gen_length arg ∧ cmd_gen_length arg ≤ 64 ∧
    (arg = none → cmd_gen_length arg = 16) ∧
    pwd.length = (cmd_gen_length arg).toNat ∧
    pwd.any Char.isLower = true ∧
    pwd.any Char.isUpper = true ∧
    pwd.any Char.isDigit = true ∧
    (use_special = true → pwd.any (fun c => specials.contains c) = true) := by
  have hs := gen_loop_sound use_special (cmd_gen_length arg).toNat rand fuel 0 pwd h
  obtain ⟨hlen, hok⟩ := hs
  simp only [pwdOk, Bool.and_eq_true] at hok
  have hb : 6 ≤ cmd_gen_length arg ∧ cmd_gen_length arg ≤ 64 := by
    cases arg with
    | none => simp [cmd_gen_length]
    | some n =>
        simp only [cmd_gen_length]
        exact ⟨le_max_left _ _, max_le (by norm_num) (min_le_left _ _)⟩
  refine ⟨hb.1, hb.2, ?_, hlen, hok.1.1.1, hok.1.1.2, hok.1.2, ?_⟩
  · rintro rfl; rfl
  · intro hus
    subst hus
    simpa using hok.2

/-- Witness for C8: a draw stream cycling over a lowercase, an uppercase,
a digit and a special position makes the first attempt succeed at the
default length 16. -/
theorem C8_password_spec_witness :
    6 ≤ cmd_gen_length none ∧ cmd_gen_length none ≤ 64 ∧
    ((none : Option Int) = none → cmd_gen_length none = 16) ∧
    (['a', 'A', '0', '!', 'a', 'A', '0', '!', 'a', 'A', '0', '!', 'a', 'A', '0', '!'] :
      List Char).length = (cmd_gen_length none).toNat ∧
    (['a', 'A', '0', '!', 'a', 'A', '0', '!', 'a', 'A', '0', '!', 'a', 'A', '0', '!'] :
      List Char).any Char.isLower = true ∧
    (['a', 'A', '0', '!', 'a', 'A', '0', '!', 'a', 'A', '0', '!', 'a', 'A', '0', '!'] :
      List Char).any Char.isUpper = true ∧
    (['a', 'A', '0', '!', 'a', 'A', '0', '!', 'a', 'A', '0', '!', 'a', 'A', '0', '!'] :
      List Char).any Char.isDigit = true ∧
    (true = true →
      (['a', 'A', '0', '!', 'a', 'A', '0', '!', 'a', 'A', '0', '!', 'a', 'A', '0', '!'] :
        List Char).any (fun c => specials.contains c) = true) :=
  C8_password_spec none true (fun i => [0, 26, 52, 62].getD (i % 4) 0) 1
    ['a', 'A', '0', '!', 'a', 'A', '0', '!', 'a', 'A', '0', '!', 'a', 'A', '0', '!']
    (by rfl)

/-- Counts returned over a gap-bounded run starting from a stored row:
each message adds one. -/
lemma spamFold_incr (ts : List Int) :
    ∀ (c : Nat) (t : Int), gapsWithin (t :: ts) = true →
      spamFold (some ⟨c, some t⟩) ts = (List.range ts.length).map (fun i => c + 1 + i) := by
  induction ts with
  | nil =>
      intro c t _
      simp [spamFold]
  | cons t1 ts ih =>
      intro c t h
      have hg : t1 - t ≤ windowMicros ∧ gapsWithin (t1 :: ts) = true := by
        simpa [gapsWithin, Bool.and_eq_true, decide_eq_true_eq] using h
      have hstep : spam_record_and_check (some ⟨c, some t⟩) t1 = (c + 1, ⟨c + 1, some t1⟩) := by
        simp only [spam_record_and_check]
        rw [if_neg (not_lt.mpr hg.1)]
      have hfun : ((fun i => c + 1 + i) ∘ (fun i => i + 1)) = fun i => c + 1 + 1 + i := by
        funext i
        simp only [Function.comp_apply]
        omega
      simp only [spamFold, hstep, List.length_cons]
      rw [List.range_succ_eq_map, List.map_cons, List.map_map, hfun]
      simp [ih (c + 1) t1 hg.2]

/-- C9: a throttle verdict never consumes or resets the counter: over any
run of messages whose consecutive gaps stay within the window the counts
returned are 1, 2, 3, ... without bound, every message from the
SPAM_LIMIT-th onward evaluates to a count at least SPAM_LIMIT, and each
evaluation at or above the limit makes the pipeline emit the warning and
the restriction again. -/
theorem C9_counter_never_consumed (ts : List Int) (h : gapsWithin ts = true) :
    spamFold none ts = (List.range ts.length).map (fun i => i + 1) ∧
    (∀ k, k < ts.length → SPAM_LIMIT - 1 ≤ k →
      SPAM_LIMIT ≤ (spamFold none ts).getD k 0) ∧
    (∀ st u text now,
      SPAM_LIMIT ≤ (spam_record_and_check (spamLookup st.spam u.id) now).1 →
      ∀ st1 effs, pipeline_handlers st (some u) text now = Except.ok (st1, effs) →
        Effect.warnReply ∈ effs ∧ Effect.restrict u.id 10 ∈ effs) := by
  have h1 : spamFold none ts = (List.range ts.length).map (fun i => i + 1) := by
    cases ts with
    | nil => simp [spamFold]
    | cons t ts1 =>
        have hstep : spam_record_and_check none t = (1, ⟨1, some t⟩) := rfl
        have hfun : ((fun i => i + 1) ∘ (fun i => i + 1)) = fun i => 1 + 1 + i := by
          funext i
          simp only [Function.comp_apply]
          omega
        simp only [spamFold, hstep, List.length_cons]
        rw [List.range_succ_eq_map, List.map_cons, List.map_map, hfun]
        simp [spamFold_incr ts1 1 t h]
  refine ⟨h1, ?_, ?_⟩
  · intro k hk hlim
    rw [h1]
    have hget : ((List.range ts.length).map (fun i => i + 1)).getD k 0 = k + 1 := by
      rw [List.getD_eq_getElem?_getD, List.getElem?_map, List.getElem?_range hk]
      rfl
    rw [hget]
    have hsl : SPAM_LIMIT = 6 := rfl
    rw [hsl] at hlim ⊢
    omega
  · intro st u text now hcnt st1 effs hrun
    rw [pipeline_throttle_eq st u text now hcnt] at hrun
    have heffs : effs = [Effect.registrySave u.id,
        Effect.counterPersist u.id (spam_record_and_check (spamLookup st.spam u.id) now).1,
        Effect.warnReply, Effect.restrict u.id 10] := by
      have := (Prod.mk.injEq _ _ _ _).mp (Except.ok.inj hrun.symm)
      exact this.2
    subst heffs
    constructor <;> simp

/-- Witness for C9: three messages one microsecond apart count 1, 2, 3. -/
theorem C9_counter_never_consumed_witness :
    spamFold none [0, 1, 2] = [1, 2, 3] := by
  have h := (C9_counter_never_consumed [0, 1, 2] (by decide)).1
  rw [h]
  rfl

end SecureBot
